import Mathlib

/-!
Shallow embedding of the example agent-bootstrap scripts under
`examples/agents/agents/python/` in the zonlabs/mcp-ts repository:
`agent.py`, `main.py`, `adk.py`, `langchain_deepagents/agent.py` and
`langchain_deepagents/main.py`.

Each Python module body is modelled as a function of the process
environment (a partial map from variable names to string values).
Objects of the external libraries (the `create_agent` configuration, the
FastAPI application, the adapter endpoint registration) are modelled as
records of the keyword arguments the scripts pass to them; the adapter
registration functions themselves are external and are modelled from the
spec as appending a single delegating route.
-/

/-- The process environment: a partial map from variable names to values. -/
def Env : Type := String → Option String

/-- Python `os.environ.get(key, dflt)` / `os.getenv(key, dflt)`. -/
def os_getenv (env : Env) (key dflt : String) : String :=
  (env key).getD dflt

/-- Python `str.lower` on a single character, modelled on the ASCII range
(the configuration vocabulary of this repository is ASCII). -/
def pyLowerChar (c : Char) : Char :=
  if h : 65 ≤ c.toNat ∧ c.toNat ≤ 90 then
    Char.ofNatAux (c.toNat + 32) (Or.inl (by omega))
  else c

/-- Python `str.lower`, modelled on the ASCII range. -/
def pyLower (s : String) : String :=
  ⟨s.data.map pyLowerChar⟩

/-- Tail of a Python decimal integer literal after its first digit: a
sequence of digits in which a single underscore may separate two digits. -/
def pyDigitsTail : List Char → Bool
  | [] => true
  | '_' :: rest =>
    match rest with
    | [] => false
    | c :: rest2 => c.isDigit && pyDigitsTail rest2
  | c :: rest => c.isDigit && pyDigitsTail rest

/-- A non-empty Python decimal digit sequence (underscores allowed between
digits, as accepted by `int()`). -/
def pyDigits : List Char → Bool
  | [] => false
  | c :: rest => c.isDigit && pyDigitsTail rest

/-- Numeric value of a digit sequence, ignoring underscores. -/
def pyDigitsVal (l : List Char) : Nat :=
  (l.filter (fun c => c != '_')).foldl (fun a c => a * 10 + (c.toNat - 48)) 0

/-- Python `int(s)` on a string: strips surrounding whitespace, accepts an
optional sign followed by a non-empty digit sequence; returns `none` when
the string is not a valid integer literal (Python raises `ValueError`). -/
def pyInt (s : String) : Option Int :=
  let t := ((s.data.dropWhile Char.isWhitespace).reverse.dropWhile
    Char.isWhitespace).reverse
  match t with
  | '+' :: rest =>
    if pyDigits rest then some (pyDigitsVal rest) else none
  | '-' :: rest =>
    if pyDigits rest then some (-(pyDigitsVal rest : Int)) else none
  | rest =>
    if pyDigits rest then some (pyDigitsVal rest) else none

/-! ## Data model of the external library objects -/

/-- `langgraph.checkpoint.memory` checkpointers used by these scripts. -/
inductive Checkpointer
  | MemorySaver
deriving DecidableEq, Repr

/-- Agent middleware instances used by these scripts (`copilotkit`). -/
inductive AgentMiddleware
  | CopilotKitMiddleware
deriving DecidableEq, Repr

/-- State-schema types used by these scripts (`copilotkit`). -/
inductive StateSchema
  | CopilotKitState
deriving DecidableEq, Repr

/-- Backend tools passed to `create_agent` (the lists are empty here). -/
abbrev Tool := String

/-- The keyword arguments the scripts pass to `langchain.agents.create_agent`:
the configuration of the compiled agent graph. -/
structure AgentConfig where
  model : String
  tools : List Tool
  middleware : List AgentMiddleware
  system_prompt : String
  checkpointer : Option Checkpointer
  state_schema : StateSchema
deriving DecidableEq, Repr

namespace AgentPy

/-!  `examples/agents/agents/python/agent.py`  -/

/-- `agent.py` line 14:
`is_fast_api = os.environ.get("LANGGRAPH_FAST_API", "true").lower() == "true"`. -/
def is_fast_api (env : Env) : Bool :=
  pyLower (os_getenv env "LANGGRAPH_FAST_API" "true") == "true"

/-- `agent.py` lines 17-37: the conditionally-checkpointed agent graph. -/
def graph (env : Env) : AgentConfig :=
  if is_fast_api env then
    { model := "openai:gpt-4o"
      tools := []
      middleware := [AgentMiddleware.CopilotKitMiddleware]
      system_prompt := "You are a helpful assistant."
      checkpointer := some Checkpointer.MemorySaver
      state_schema := StateSchema.CopilotKitState }
  else
    { model := "openai:gpt-4o"
      tools := []
      middleware := [AgentMiddleware.CopilotKitMiddleware]
      system_prompt := "You are a helpful assistant."
      checkpointer := none
      state_schema := StateSchema.CopilotKitState }

end AgentPy

/-- An environment in which `LANGGRAPH_FAST_API` is bound to `s` and every
other variable is unset. -/
def envFlag (s : String) : Env :=
  fun k => if k = "LANGGRAPH_FAST_API" then some s else none

/-- The empty environment: every variable is unset. -/
def envEmpty : Env := fun _ => none

/-! ## HTTP application model -/

/-- The keyword arguments the scripts pass when registering the `fastapi`
CORS middleware. -/
structure CORSConfig where
  allow_origins : List String
  allow_credentials : Bool
  allow_methods : List String
  allow_headers : List String
deriving DecidableEq, Repr

/-- `copilotkit.LangGraphAGUIAgent`: a named wrapper around an agent graph. -/
structure LangGraphAGUIAgent where
  name : String
  description : String
  graph : AgentConfig
deriving DecidableEq, Repr

/-- `google.adk.agents.LlmAgent` as instantiated in `adk.py`; the `LiteLlm`
model wrapper is kept as the model string it wraps. -/
structure LlmAgent where
  name : String
  model : String
  instruction : String
deriving DecidableEq, Repr

/-- `ag_ui_adk.ADKAgent`: the external middleware agent wrapper. -/
structure ADKAgent where
  adk_agent : LlmAgent
  app_name : String
  user_id : String
  session_timeout_seconds : Nat
  use_in_memory_services : Bool
deriving DecidableEq, Repr

/-- A route handler: delegation to an external adapter library's handler,
carrying the agent object that was handed to the adapter. -/
inductive Handler
  | langgraph_handler (agent : LangGraphAGUIAgent)
  | adk_handler (agent : ADKAgent)
deriving DecidableEq, Repr

/-- A registered HTTP route. -/
structure Route where
  path : String
  handler : Handler
deriving DecidableEq, Repr

/-- The FastAPI application object, as far as these scripts shape it. -/
structure App where
  title : String
  http_middleware : List CORSConfig
  routes : List Route
deriving DecidableEq, Repr

/-- `fastapi.FastAPI(title=...)`: a fresh application, no routes registered
by this code. -/
def FastAPI (title : String) : App :=
  { title := title, http_middleware := [], routes := [] }

/-- `app.add_middleware(CORSMiddleware, ...)`. -/
def App.add_middleware (a : App) (m : CORSConfig) : App :=
  { a with http_middleware := a.http_middleware ++ [m] }

/-- Modelled from the spec: `ag_ui_langgraph.add_langgraph_fastapi_endpoint`
(external adapter library) registers a single POST-capable route at `path`,
delegated entirely to the adapter's handler for `agent`. -/
def add_langgraph_fastapi_endpoint (app : App) (agent : LangGraphAGUIAgent)
    (path : String) : App :=
  { app with
    routes := app.routes ++ [{ path := path, handler := Handler.langgraph_handler agent }] }

/-- Modelled from the spec: `ag_ui_adk.add_adk_fastapi_endpoint` (external
adapter library) registers a single POST-capable route at `path`, delegated
entirely to the adapter's handler for `agent`. -/
def add_adk_fastapi_endpoint (app : App) (agent : ADKAgent) (path : String) : App :=
  { app with
    routes := app.routes ++ [{ path := path, handler := Handler.adk_handler agent }] }

/-- The keyword arguments `uvicorn.run` is called with. -/
structure ServerBind where
  app_ref : String
  host : String
  port : Int
  reload : Bool
deriving DecidableEq, Repr

namespace MainPy

/-!  `examples/agents/agents/python/main.py`  -/

/-- `main.py` lines 15-23: the FastAPI app with CORS middleware. -/
def base_app : App :=
  (FastAPI "LangGraph Dojo Example Server").add_middleware
    { allow_origins := ["*"]
      allow_credentials := true
      allow_methods := ["*"]
      allow_headers := ["*"] }

/-- `main.py` lines 25-29. -/
def langgraph_agent (env : Env) : LangGraphAGUIAgent :=
  { name := "mcpAssistant"
    description := "An example for an agentic chat flow using LangGraph."
    graph := AgentPy.graph env }

/-- `main.py` lines 32-34: the module-level app after endpoint registration. -/
def app (env : Env) : App :=
  add_langgraph_fastapi_endpoint base_app (langgraph_agent env) "/agent"

end MainPy

namespace AdkPy

/-!  `examples/agents/agents/python/adk.py`  -/

def GEMINI_MODEL : String := "gemini-2.0-flash"

def OPENAI_MODEL : String := "openai/gpt-4o"

def DEEPSEEK_MODEL : String := "deepseek/deepseek-chat"

def MODEL_CLAUDE_SONNET : String := "anthropic/claude-3-sonnet-20240229"

/-- `adk.py` line 17: `model = LiteLlm(model=DEEPSEEK_MODEL)`. -/
def model : String := DEEPSEEK_MODEL

/-- `adk.py` lines 31-38. -/
def sample_agent : LlmAgent :=
  { name := "assistant"
    model := model
    instruction := "\nYou are a helpful AI assistant that helps users with MCP Tools.\nNote: you can call multiple tools at the same time to save up time.\n    " }

/-- `adk.py` lines 41-47: the ADK middleware agent instance. -/
def chat_agent : ADKAgent :=
  { adk_agent := sample_agent
    app_name := "agents"
    user_id := "demo_user"
    session_timeout_seconds := 3600
    use_in_memory_services := true }

/-- `adk.py` line 50. -/
def base_app : App := FastAPI "ADK Middleware Basic Chat"

/-- `adk.py` line 53: the module-level app after endpoint registration. -/
def app : App := add_adk_fastapi_endpoint base_app chat_agent "/agent"

/-- The same construction with the literal `session_timeout_seconds` value
abstracted, used to state that this layer passes the timeout through
opaquely and never reads it. -/
def chat_agent_with (t : Nat) : ADKAgent :=
  { chat_agent with session_timeout_seconds := t }

/-- The module-level app built over `chat_agent_with t`. -/
def app_with (t : Nat) : App :=
  add_adk_fastapi_endpoint base_app (chat_agent_with t) "/agent"

end AdkPy

namespace DeepAgentPy

/-!  `examples/agents/agents/python/langchain_deepagents/agent.py`  -/

/-- `langchain_deepagents/agent.py` lines 14-22: the agent graph with an
unconditional `MemorySaver` checkpointer; the module reads no environment
variable. -/
def graph (_env : Env) : AgentConfig :=
  { model := "openai:gpt-4o"
    tools := []
    middleware := [AgentMiddleware.CopilotKitMiddleware]
    system_prompt := "You are a helpful assistant."
    checkpointer := some Checkpointer.MemorySaver
    state_schema := StateSchema.CopilotKitState }

end DeepAgentPy

namespace DeepMainPy

/-!  `examples/agents/agents/python/langchain_deepagents/main.py`  -/

/-- `langchain_deepagents/main.py` lines 15-23. -/
def base_app : App :=
  (FastAPI "LangGraph Dojo Example Server").add_middleware
    { allow_origins := ["*"]
      allow_credentials := true
      allow_methods := ["*"]
      allow_headers := ["*"] }

/-- `langchain_deepagents/main.py` lines 25-32: the agents dict. -/
def agents (env : Env) : List (String × LangGraphAGUIAgent) :=
  [("agentic_chat",
    { name := "agentic_chat"
      description := "An example for an agentic chat flow using LangGraph."
      graph := DeepAgentPy.graph env })]

/-- `langchain_deepagents/main.py` lines 34-36: endpoint registration with
`agents["agentic_chat"]` (a missing key would raise in Python; the key is
present, so the fallback branch is unreachable). -/
def app (env : Env) : App :=
  match (agents env).lookup "agentic_chat" with
  | some a => add_langgraph_fastapi_endpoint base_app a "./agent"
  | none => base_app

/-- `langchain_deepagents/main.py` lines 38-41: `main()` parses `PORT` with
`int(os.getenv("PORT", "8000"))` and starts uvicorn; `none` models the
uncaught `ValueError` from `int()`, under which no server is bound. -/
def main (env : Env) : Option ServerBind :=
  match pyInt (os_getenv env "PORT" "8000") with
  | some p => some { app_ref := "main:app", host := "0.0.0.0", port := p, reload := true }
  | none => none

end DeepMainPy

/-- Trace of the observable initialization effects of a module body: the
environment keys read (in order) and the agent configurations constructed
(in order). -/
structure InitTrace where
  env_reads : List String
  agents_constructed : List AgentConfig
deriving DecidableEq, Repr

namespace AgentPy

/-- Instrumented run of the `agent.py` module body: the same straight-line
initialization, additionally recording each environment read and each agent
construction. -/
def module_init (env : Env) : AgentConfig × InitTrace :=
  let raw := os_getenv env "LANGGRAPH_FAST_API" "true"
  let fa := pyLower raw == "true"
  if fa then
    let g : AgentConfig :=
      { model := "openai:gpt-4o"
        tools := []
        middleware := [AgentMiddleware.CopilotKitMiddleware]
        system_prompt := "You are a helpful assistant."
        checkpointer := some Checkpointer.MemorySaver
        state_schema := StateSchema.CopilotKitState }
    (g, { env_reads := ["LANGGRAPH_FAST_API"], agents_constructed := [g] })
  else
    let g : AgentConfig :=
      { model := "openai:gpt-4o"
        tools := []
        middleware := [AgentMiddleware.CopilotKitMiddleware]
        system_prompt := "You are a helpful assistant."
        checkpointer := none
        state_schema := StateSchema.CopilotKitState }
    (g, { env_reads := ["LANGGRAPH_FAST_API"], agents_constructed := [g] })

end AgentPy

namespace MainPy

/-- The top-level `main.py` application as a function of an already-built
graph: every environment-dependent part of the module state reaches the
HTTP surface only through the single graph value computed at
initialization. -/
def app_of_graph (g : AgentConfig) : App :=
  add_langgraph_fastapi_endpoint base_app
    { name := "mcpAssistant"
      description := "An example for an agentic chat flow using LangGraph."
      graph := g } "/agent"

end MainPy

/-- An environment in which `PORT` is bound to `p` and every other variable
is unset. -/
def envPort (p : String) : Env :=
  fun k => if k = "PORT" then some p else none

/-- An environment binding both `LANGGRAPH_FAST_API` and `PORT`. -/
def envFlagPort (s p : String) : Env :=
  fun k =>
    if k = "LANGGRAPH_FAST_API" then some s
    else if k = "PORT" then some p
    else none

/-- A configuration with its checkpointer field erased, for stating that
the two construction branches agree on every other field. -/
def AgentConfig.eraseCheckpointer (c : AgentConfig) : AgentConfig :=
  { c with checkpointer := none }

example : AgentPy.is_fast_api (envFlag "true") = true := by decide
example : AgentPy.is_fast_api (envFlag "TRUE") = true := by decide
example : AgentPy.is_fast_api envEmpty = true := by decide
example : AgentPy.is_fast_api (envFlag "false") = false := by decide
example : AgentPy.is_fast_api (envFlag " true ") = false := by decide
example : pyInt "9001" = some 9001 := by decide
example : pyInt " -42 " = some (-42) := by decide
example : pyInt "9_001" = some 9001 := by decide
example : pyInt "abc" = none := by decide
example : pyInt "" = none := by decide
example : pyInt "1_" = none := by decide

/-! ## Helper lemmas -/

theorem pyLowerChar_toNat_of_upper {c : Char}
    (h : 65 ≤ c.toNat ∧ c.toNat ≤ 90) :
    (pyLowerChar c).toNat = c.toNat + 32 := by
  unfold pyLowerChar
  rw [dif_pos h]
  rfl

theorem pyLowerChar_not_upper (c : Char) :
    ¬ (65 ≤ (pyLowerChar c).toNat ∧ (pyLowerChar c).toNat ≤ 90) := by
  by_cases h : 65 ≤ c.toNat ∧ c.toNat ≤ 90
  · rw [pyLowerChar_toNat_of_upper h]
    omega
  · unfold pyLowerChar
    rw [dif_neg h]
    exact h

theorem pyLowerChar_idem (c : Char) :
    pyLowerChar (pyLowerChar c) = pyLowerChar c := by
  generalize hd : pyLowerChar c = d
  have h : ¬ (65 ≤ d.toNat ∧ d.toNat ≤ 90) := by
    rw [← hd]
    exact pyLowerChar_not_upper c
  unfold pyLowerChar
  exact dif_neg h

theorem pyLower_idem (s : String) : pyLower (pyLower s) = pyLower s := by
  unfold pyLower
  apply congrArg String.mk
  show (s.data.map pyLowerChar).map pyLowerChar = s.data.map pyLowerChar
  rw [List.map_map]
  exact List.map_congr_left (fun c _ => pyLowerChar_idem c)

theorem is_fast_api_envFlag (s : String) :
    AgentPy.is_fast_api (envFlag s) = (pyLower s == "true") := rfl

/-! ## Claim theorems -/

/-- C1: in `agent.py`, the constructed agent configuration carries a
non-null in-memory checkpoint store exactly in the dev-mode cases: for
`LANGGRAPH_FAST_API="true"` and for the variable unset a `MemorySaver`
checkpointer is attached, and for `"false"` no checkpointer is attached. -/
theorem checkpointer_matches_dev_flag :
    (AgentPy.graph (envFlag "true")).checkpointer = some Checkpointer.MemorySaver ∧
    (AgentPy.graph envEmpty).checkpointer = some Checkpointer.MemorySaver ∧
    (AgentPy.graph (envFlag "false")).checkpointer = none := by
  decide

/-- C3: the two branches of the conditional construction in `agent.py`
agree on every field except the checkpointer: for every pair of
environments the configurations agree once the checkpointer is erased, and
in every environment the model is `"openai:gpt-4o"`, the tool list is
empty, the middleware list holds exactly one `CopilotKitMiddleware`, the
system prompt is the fixed string, and the state schema is
`CopilotKitState`. -/
theorem branches_agree_except_checkpointer (env env2 : Env) :
    (AgentPy.graph env).eraseCheckpointer = (AgentPy.graph env2).eraseCheckpointer ∧
    (AgentPy.graph env).model = "openai:gpt-4o" ∧
    (AgentPy.graph env).tools = [] ∧
    (AgentPy.graph env).middleware = [AgentMiddleware.CopilotKitMiddleware] ∧
    (AgentPy.graph env).system_prompt = "You are a helpful assistant." ∧
    (AgentPy.graph env).state_schema = StateSchema.CopilotKitState := by
  unfold AgentPy.graph AgentConfig.eraseCheckpointer
  by_cases h : AgentPy.is_fast_api env <;>
    by_cases h2 : AgentPy.is_fast_api env2 <;>
      simp [h, h2]

/-- C5: the dev-mode flag is interpreted case-insensitively: for every
string `s`, constructing the agent with flag value `s` yields the same
configuration as with the lowercased value of `s`; in particular `"TRUE"`
and `"True"` select the same (checkpointer) branch as `"true"`. -/
theorem flag_case_insensitive (s : String) :
    AgentPy.graph (envFlag s) = AgentPy.graph (envFlag (pyLower s)) ∧
    (AgentPy.graph (envFlag "TRUE")).checkpointer = some Checkpointer.MemorySaver ∧
    (AgentPy.graph (envFlag "True")).checkpointer = some Checkpointer.MemorySaver ∧
    (AgentPy.graph (envFlag "true")).checkpointer = some Checkpointer.MemorySaver := by
  refine ⟨?_, by decide, by decide, by decide⟩
  have h : AgentPy.is_fast_api (envFlag s) = AgentPy.is_fast_api (envFlag (pyLower s)) := by
    rw [is_fast_api_envFlag, is_fast_api_envFlag, pyLower_idem]
  unfold AgentPy.graph
  rw [h]

/-- C9: only the exact lowercased string `"true"` is treated as truthy by
the flag check in `agent.py`: a checkpointer is attached for flag value `s`
iff `s` lowercases to `"true"`; in particular `"1"`, `"yes"`, the empty
string and `" true "` take the no-checkpointer branch, while the unset
variable takes the checkpointer branch. -/
theorem only_exact_true_is_truthy (s : String) :
    ((AgentPy.graph (envFlag s)).checkpointer ≠ none ↔ pyLower s = "true") ∧
    (AgentPy.graph (envFlag "1")).checkpointer = none ∧
    (AgentPy.graph (envFlag "yes")).checkpointer = none ∧
    (AgentPy.graph (envFlag "")).checkpointer = none ∧
    (AgentPy.graph (envFlag " true ")).checkpointer = none ∧
    (AgentPy.graph envEmpty).checkpointer = some Checkpointer.MemorySaver := by
  refine ⟨?_, by decide, by decide, by decide, by decide, by decide⟩
  unfold AgentPy.graph
  rw [is_fast_api_envFlag]
  by_cases h : pyLower s = "true" <;> simp [h]

/-- C6: agent construction is deterministic: two runs of the construction
in `agent.py` over environments that agree on the flag variable produce
configurations with identical model identifier, identical system prompt
and identical middleware list. -/
theorem deterministic_construction (env1 env2 : Env)
    (h : env1 "LANGGRAPH_FAST_API" = env2 "LANGGRAPH_FAST_API") :
    (AgentPy.graph env1).model = (AgentPy.graph env2).model ∧
    (AgentPy.graph env1).system_prompt = (AgentPy.graph env2).system_prompt ∧
    (AgentPy.graph env1).middleware = (AgentPy.graph env2).middleware := by
  have hf : AgentPy.is_fast_api env1 = AgentPy.is_fast_api env2 := by
    unfold AgentPy.is_fast_api os_getenv
    rw [h]
  unfold AgentPy.graph
  rw [hf]
  exact ⟨rfl, rfl, rfl⟩

/-- Witness for C6 at two concrete distinct environments sharing the flag
value `"false"`. -/
theorem deterministic_construction_witness :
    (AgentPy.graph (envFlag "false")).model =
      (AgentPy.graph (envFlagPort "false" "9001")).model ∧
    (AgentPy.graph (envFlag "false")).system_prompt =
      (AgentPy.graph (envFlagPort "false" "9001")).system_prompt ∧
    (AgentPy.graph (envFlag "false")).middleware =
      (AgentPy.graph (envFlagPort "false" "9001")).middleware :=
  deterministic_construction (envFlag "false") (envFlagPort "false" "9001") (by decide)

/-- C7: exactly one agent instance is constructed per module run and the
flag is read exactly once, at initialization: the instrumented module body
reads the environment only at key `LANGGRAPH_FAST_API`, once, constructs
exactly one agent configuration (the module graph), and the served
application depends on the environment only through that one graph value. -/
theorem single_agent_single_env_read (env : Env) :
    (AgentPy.module_init env).1 = AgentPy.graph env ∧
    (AgentPy.module_init env).2.env_reads = ["LANGGRAPH_FAST_API"] ∧
    (AgentPy.module_init env).2.agents_constructed = [AgentPy.graph env] ∧
    MainPy.app env = MainPy.app_of_graph (AgentPy.graph env) := by
  unfold AgentPy.module_init AgentPy.graph AgentPy.is_fast_api
  by_cases h : pyLower (os_getenv env "LANGGRAPH_FAST_API" "true") == "true" <;>
    simp [h, MainPy.app, MainPy.app_of_graph, MainPy.langgraph_agent, AgentPy.graph,
      AgentPy.is_fast_api]

/-- C4: each example application exposes exactly one registered route, at
its configured path (`/agent` for the top-level and adk examples, `./agent`
for the langchain_deepagents example), and that route delegates to the
external agent-adapter's handler for the registered agent. -/
theorem single_route_per_app (env : Env) :
    (MainPy.app env).routes =
      [{ path := "/agent",
         handler := Handler.langgraph_handler (MainPy.langgraph_agent env) }] ∧
    (DeepMainPy.app env).routes =
      [{ path := "./agent",
         handler := Handler.langgraph_handler
           { name := "agentic_chat"
             description := "An example for an agentic chat flow using LangGraph."
             graph := DeepAgentPy.graph env } }] ∧
    AdkPy.app.routes =
      [{ path := "/agent", handler := Handler.adk_handler AdkPy.chat_agent }] :=
  ⟨rfl, rfl, rfl⟩

/-- C8: the idle-session timeout is an opaque constant at this layer: the
adk example passes `session_timeout_seconds=3600` unchanged into the
external middleware agent handed to the single registered route, and the
construction is parametric in the timeout — no other part of the built
application reads it. -/
theorem timeout_opaque_constant (t : Nat) :
    AdkPy.chat_agent.session_timeout_seconds = 3600 ∧
    AdkPy.app.routes =
      [{ path := "/agent", handler := Handler.adk_handler AdkPy.chat_agent }] ∧
    (AdkPy.chat_agent_with t).session_timeout_seconds = t ∧
    (AdkPy.app_with t).routes =
      [{ path := "/agent", handler := Handler.adk_handler (AdkPy.chat_agent_with t) }] ∧
    (AdkPy.app_with t).title = AdkPy.app.title ∧
    (AdkPy.app_with t).http_middleware = AdkPy.app.http_middleware :=
  ⟨rfl, rfl, rfl, rfl, rfl, rfl⟩

/-- C10: the langchain_deepagents example attaches an in-memory
`MemorySaver` checkpointer unconditionally: for every environment the
constructed configuration's checkpoint store is non-null. -/
theorem deepagents_always_checkpointer (env : Env) :
    (DeepAgentPy.graph env).checkpointer = some Checkpointer.MemorySaver :=
  rfl

/-- Counterexample to C2 as stated: with `PORT` set to the invalid value
`"abc"`, `main()` in `langchain_deepagents/main.py` binds no port at all —
`int("abc")` raises an uncaught `ValueError` — rather than defaulting to
8000 as the claim requires. -/
theorem port_invalid_no_bind :
    DeepMainPy.main (envPort "abc") = none := by
  decide

/-- C2 (amended): the port the server binds to equals the parsed value of
`PORT` when `PORT` is set to a valid integer, and equals 8000 when `PORT`
is unset; when `PORT` is set but not a valid integer, `int()` raises and no
server is bound. -/
theorem port_from_env (env : Env) :
    (env "PORT" = none →
      DeepMainPy.main env =
        some { app_ref := "main:app", host := "0.0.0.0", port := 8000, reload := true }) ∧
    (∀ s n, env "PORT" = some s → pyInt s = some n →
      DeepMainPy.main env =
        some { app_ref := "main:app", host := "0.0.0.0", port := n, reload := true }) ∧
    (∀ s, env "PORT" = some s → pyInt s = none → DeepMainPy.main env = none) := by
  refine ⟨?_, ?_, ?_⟩
  · intro h
    unfold DeepMainPy.main os_getenv
    rw [h]
    rfl
  · intro s n hs hn
    unfold DeepMainPy.main os_getenv
    rw [hs]
    simp [hn]
  · intro s hs hn
    unfold DeepMainPy.main os_getenv
    rw [hs]
    simp [hn]

/-- Witness for C2 (amended) at the unset, valid and invalid `PORT`
cases. -/
theorem port_from_env_witness :
    DeepMainPy.main envEmpty =
      some { app_ref := "main:app", host := "0.0.0.0", port := 8000, reload := true } ∧
    DeepMainPy.main (envPort "9001") =
      some { app_ref := "main:app", host := "0.0.0.0", port := 9001, reload := true } ∧
    DeepMainPy.main (envPort "abc") = none :=
  ⟨(port_from_env envEmpty).1 rfl,
   (port_from_env (envPort "9001")).2.1 "9001" 9001 rfl (by decide),
   (port_from_env (envPort "abc")).2.2 "abc" rfl (by decide)⟩
